import Mathlib

/-!
# aws-cfn-deployer: the reconciliation engine of `main.go`

A shallow embedding of `stackExists`, `parseTemplate`, `createStack`,
`updateStack` and `deploy`.  The file system and the remote service are taken
as an environment `Env σ` (a deterministic service with state `σ`); the calls of
the AWS SDK the program makes (`cfn.CreateStack`, `cfn.UpdateStack` and the two
waiters) are functions over it that give the errors their SDK form and hold a
wait to its bound.  The calls made and the lines logged are recorded, in order,
in a trace of `Event`s.
-/

namespace CfnDeployer

/-! ## Data model -/

/-- A non-nil Go `error`, represented by the text `err.Error()` yields. -/
abbrev GoError := String

/-- Go `time.Duration`: a count of nanoseconds. -/
abbrev Duration := Int

/-- Go `time.Nanosecond`. -/
def Nanosecond : Duration := 1

/-- Go `time.Microsecond`. -/
def Microsecond : Duration := 1000 * Nanosecond

/-- Go `time.Second`. -/
def Second : Duration := 1000000000 * Nanosecond

/-- Go `time.Minute`. -/
def Minute : Duration := 60 * Second

/-- The fields of `types.StackSummary` read by `stackExists`.  `StackName` is a
required member of the service response, so it is never a nil pointer. -/
structure StackSummary where
  StackName : String
  StackStatus : String
deriving DecidableEq, Repr

/-- The outcome of one `paginator.NextPage` call: the `StackSummaries` of the
page, or the error of the fetch. -/
inductive PageResult where
  | ok (StackSummaries : List StackSummary)
  | error (err : GoError)
deriving DecidableEq, Repr

/-- The fields of `cloudformation.CreateStackInput` set by `createStack`; a Go
`*string` is an `Option String`. -/
structure CreateStackInput where
  StackName : Option String
  TemplateBody : Option String
  Capabilities : List String
deriving DecidableEq, Repr

/-- The fields of `cloudformation.UpdateStackInput` set by `updateStack`. -/
structure UpdateStackInput where
  StackName : Option String
  TemplateBody : Option String
  Capabilities : List String
deriving DecidableEq, Repr

/-- The payload `cloudformation.CreateStackOutput`. -/
structure CreateStackOutput where
  StackId : Option String
deriving DecidableEq, Repr

/-- The payload `cloudformation.UpdateStackOutput`. -/
structure UpdateStackOutput where
  StackId : Option String
deriving DecidableEq, Repr

/-- The request `cloudformation.DescribeStacksInput` handed to a waiter. -/
structure DescribeStacksInput where
  NextToken : Option String
  StackName : Option String
deriving DecidableEq, Repr

/-- What a service call or a file read gave back: a value or a Go error. -/
inductive Outcome (α : Type) where
  | ok (value : α)
  | error (err : GoError)
deriving DecidableEq, Repr

/-- The colour helper of `fatih/color` a log line was built with. -/
inductive Color where
  | plain
  | yellow
  | red
  | green
deriving DecidableEq, Repr

/-- What the program does that is visible outside it, each with the answer it
received. -/
inductive Event where
  /-- The call `os.ReadFile(filename)` in `parseTemplate`. -/
  | parseTemplate (filename : String) (result : Outcome String)
  /-- Entry into `stackExists(cfn, stackName)`. -/
  | stackExists (stackName : String)
  /-- One `paginator.NextPage` call. -/
  | listStacks (result : PageResult)
  /-- The call `cfn.CreateStack`. -/
  | createStack (input : CreateStackInput) (result : Outcome CreateStackOutput)
  /-- The call `cfn.UpdateStack`. -/
  | updateStack (input : UpdateStackInput) (result : Outcome UpdateStackOutput)
  /-- The call `waiter.Wait` of the create-complete waiter. -/
  | waitCreate (input : DescribeStacksInput) (maxWaitDur : Duration) (err : Option GoError)
  /-- The call `waiter.Wait` of the update-complete waiter. -/
  | waitUpdate (input : DescribeStacksInput) (maxWaitDur : Duration) (err : Option GoError)
  /-- A line logged with `log.Print` or `log.Printf`. -/
  | print (color : Color) (msg : String)
  /-- A call of `log.Fatal`: the line is printed and the process ends with `os.Exit(1)`. -/
  | fatal (color : Color) (msg : String)
deriving DecidableEq, Repr

/-- How a function that may call `log.Fatal` ends. -/
inductive Res (α : Type) where
  | ret (value : α)
  | exited (code : Nat)
deriving DecidableEq, Repr

/-- What a waiter that had the time to poll the service ends on. -/
inductive WaitState where
  /-- The stacks described reached the success state. -/
  | success
  /-- A stack described reached a failure state. -/
  | failure
  /-- The bound ran out before a terminal state. -/
  | timeout
  /-- The call `DescribeStacks` failed with an API error passed through. -/
  | describeError (cause : String)
  /-- The call `DescribeStacks` failed with an error that is no API error. -/
  | transportError (cause : String)
deriving DecidableEq, Repr

/-- The file system and the remote service.  `σ` is the state of the service;
submitting and waiting may change it, listing and reading files do not.
`ListStacks s` is the sequence of outcomes the paginator yields, one per
`NextPage` call, until `HasMorePages` is false.  `SubmitCreate` and
`SubmitUpdate` are the answers of the service to the two requests, an error
being the cause the service gives; `PollCreate` and `PollUpdate` are what a
waiter polling the service ends on. -/
structure Env (σ : Type) where
  ReadFile : String → Outcome String
  ListStacks : σ → List PageResult
  SubmitCreate : CreateStackInput → σ → Outcome CreateStackOutput × σ
  SubmitUpdate : UpdateStackInput → σ → Outcome UpdateStackOutput × σ
  PollCreate : DescribeStacksInput → Duration → σ → WaitState × σ
  PollUpdate : DescribeStacksInput → Duration → σ → WaitState × σ

/-- The text of the `smithy.OperationError` the SDK client wraps around the
cause of a failed operation. -/
def operationError (operation cause : String) : GoError :=
  "operation error CloudFormation: " ++ operation ++ ", " ++ cause

/-- The SDK client turning an answer of the service into what the operation
`operation` returns. -/
def Outcome.wrap {α : Type} (operation : String) : Outcome α → Outcome α
  | .ok value => .ok value
  | .error cause => .error (operationError operation cause)

/-- The error of the SDK waiter named `waiter` for the state it ended on. -/
def waiterError (waiter : String) : WaitState → Option GoError
  | .success => none
  | .failure => some "waiter state transitioned to Failure"
  | .timeout => some ("exceeded max wait time for " ++ waiter ++ " waiter")
  | .describeError cause => some (operationError "DescribeStacks" cause)
  | .transportError cause =>
    some ("expected err to be of type smithy.APIError, got " ++
      operationError "DescribeStacks" cause)

/-- The SDK waiter named `waiter` over the polling `poll`.  It refuses a
bound that is not positive and puts the bound as a deadline on the context of
its `DescribeStacks` calls: under a microsecond the deadline has passed before
the first answer of the remote service can arrive, and the wait fails on that
call. -/
def waiterWait {σ : Type} (waiter : String)
    (poll : DescribeStacksInput → Duration → σ → WaitState × σ)
    (input : DescribeStacksInput) (maxWaitDur : Duration) (s : σ) : Option GoError × σ :=
  if maxWaitDur ≤ 0 then (some "maximum wait time for waiter must be greater than zero", s)
  else if maxWaitDur < Microsecond then
    (waiterError waiter (.transportError "context deadline exceeded"), s)
  else
    let r := poll input maxWaitDur s
    (waiterError waiter r.1, r.2)

/-- The SDK call `cfn.CreateStack`. -/
def Env.CreateStack {σ : Type} (cfn : Env σ) (input : CreateStackInput) (s : σ) :
    Outcome CreateStackOutput × σ :=
  let r := cfn.SubmitCreate input s
  (r.1.wrap "CreateStack", r.2)

/-- The SDK call `cfn.UpdateStack`. -/
def Env.UpdateStack {σ : Type} (cfn : Env σ) (input : UpdateStackInput) (s : σ) :
    Outcome UpdateStackOutput × σ :=
  let r := cfn.SubmitUpdate input s
  (r.1.wrap "UpdateStack", r.2)

/-- The call `waiter.Wait` of `cloudformation.NewStackCreateCompleteWaiter(cfn)`. -/
def Env.WaitCreate {σ : Type} (cfn : Env σ) (input : DescribeStacksInput)
    (maxWaitDur : Duration) (s : σ) : Option GoError × σ :=
  waiterWait "StackCreateComplete" cfn.PollCreate input maxWaitDur s

/-- The call `waiter.Wait` of `cloudformation.NewStackUpdateCompleteWaiter(cfn)`. -/
def Env.WaitUpdate {σ : Type} (cfn : Env σ) (input : DescribeStacksInput)
    (maxWaitDur : Duration) (s : σ) : Option GoError × σ :=
  waiterWait "StackUpdateComplete" cfn.PollUpdate input maxWaitDur s

/-- A finished call: what it did, the service state it left, what it returned. -/
structure Run (σ α : Type) where
  trace : List Event
  state : σ
  val : α

/-- A Go `map[string]string`. -/
abbrev GoMap := List (String × String)

/-- Go `m[k]`: the zero value for a missing key. -/
def GoMap.index (m : GoMap) (k : String) : String :=
  (m.lookup k).getD ""

/-- The Go struct `DeployConfig`. -/
structure DeployConfig where
  AWSProfile : String
  Stacks : List GoMap

/-! ## The functions of `main.go` -/

/-- The inner loop of `stackExists` over `page.StackSummaries`. -/
def scanPage (stackName : String) : List StackSummary → Bool
  | [] => false
  | stack :: rest =>
    if stack.StackStatus = "DELETE_COMPLETE" then scanPage stackName rest
    else if stack.StackName = stackName then true
    else scanPage stackName rest

/-- The outer loop of `stackExists` over the pages of the paginator. -/
def scanPages (stackName : String) : List PageResult → List Event × Res Bool
  | [] => ([], .ret false)
  | .error err :: _ => ([.listStacks (.error err), .fatal .plain err], .exited 1)
  | .ok page :: rest =>
    if scanPage stackName page then ([.listStacks (.ok page)], .ret true)
    else
      let r := scanPages stackName rest
      (.listStacks (.ok page) :: r.1, r.2)

/-- The function `stackExists`. -/
def stackExists {σ : Type} (cfn : Env σ) (stackName : String) (s : σ) : Run σ (Res Bool) :=
  let r := scanPages stackName (cfn.ListStacks s)
  ⟨.stackExists stackName :: r.1, s, r.2⟩

/-- The function `parseTemplate`. -/
def parseTemplate {σ : Type} (cfn : Env σ) (filename : String) : String × Option GoError :=
  match cfn.ReadFile filename with
  | .error err => ("", some err)
  | .ok template => (template, none)

/-- The capability list sent with both requests. -/
def capabilities : List String := ["CAPABILITY_IAM", "CAPABILITY_NAMED_IAM"]

/-- The function `createStack`. -/
def createStack {σ : Type} (cfn : Env σ) (stackName template : String) (s : σ) :
    Run σ (CreateStackOutput × Option GoError) :=
  let input : CreateStackInput := ⟨some stackName, some template, capabilities⟩
  match cfn.CreateStack input s with
  | (.error err, s1) => ⟨[.createStack input (.error err)], s1, (⟨none⟩, some err)⟩
  | (.ok response, s1) =>
    match cfn.WaitCreate ⟨none, none⟩ 600 s1 with
    | (some err, s2) =>
      ⟨[.createStack input (.ok response), .waitCreate ⟨none, none⟩ 600 (some err)], s2,
        (⟨none⟩, some err)⟩
    | (none, s2) =>
      ⟨[.createStack input (.ok response), .waitCreate ⟨none, none⟩ 600 none], s2,
        (response, none)⟩

/-- The function `updateStack`. -/
def updateStack {σ : Type} (cfn : Env σ) (stackName template : String) (s : σ) :
    Run σ (UpdateStackOutput × Option GoError) :=
  let input : UpdateStackInput := ⟨some stackName, some template, capabilities⟩
  match cfn.UpdateStack input s with
  | (.error err, s1) => ⟨[.updateStack input (.error err)], s1, (⟨none⟩, some err)⟩
  | (.ok response, s1) =>
    match cfn.WaitUpdate ⟨none, none⟩ 600 s1 with
    | (some err, s2) =>
      ⟨[.updateStack input (.ok response), .waitUpdate ⟨none, none⟩ 600 (some err)], s2,
        (⟨none⟩, some err)⟩
    | (none, s2) =>
      ⟨[.updateStack input (.ok response), .waitUpdate ⟨none, none⟩ 600 none], s2,
        (response, none)⟩

/-- The two log lines of a failed deploy, the second through `log.Fatal`. -/
def failureLog (stackName : String) (err : GoError) : List Event :=
  [.print .red ("Deploy of stack " ++ stackName ++ " failed"), .fatal .red err]

/-- The log line closing a successful iteration of `deploy`. -/
def successLog (stackName : String) : Event :=
  .print .green ("Sucessfully deployed stack " ++ stackName)

/-- One iteration of the loop of `deploy`, for the entry `stack`. -/
def deployStack {σ : Type} (cfn : Env σ) (stack : GoMap) (s : σ) : Run σ (Res Unit) :=
  let stackName := stack.index "name"
  let filename := stack.index "template"
  match parseTemplate cfn filename with
  | (_, some err) =>
    ⟨[.parseTemplate filename (cfn.ReadFile filename), .print .yellow err], s, .ret ()⟩
  | (template, none) =>
    let t0 : List Event :=
      [.parseTemplate filename (cfn.ReadFile filename),
       .print .plain ("Checking if stack " ++ stackName ++ " exists")]
    match stackExists cfn stackName s with
    | ⟨t1, s1, .exited code⟩ => ⟨t0 ++ t1, s1, .exited code⟩
    | ⟨t1, s1, .ret true⟩ =>
      let t2 := [Event.print .plain ("Stack " ++ stackName ++ " exists, attempting to update.")]
      match updateStack cfn stackName template s1 with
      | ⟨t3, s2, (_, some err)⟩ =>
        ⟨t0 ++ t1 ++ t2 ++ t3 ++ failureLog stackName err, s2, .exited 1⟩
      | ⟨t3, s2, (_, none)⟩ =>
        ⟨t0 ++ t1 ++ t2 ++ t3 ++ [successLog stackName], s2, .ret ()⟩
    | ⟨t1, s1, .ret false⟩ =>
      let t2 := [Event.print .plain ("Stack " ++ stackName ++ " does not exists, creating.")]
      match createStack cfn stackName template s1 with
      | ⟨t3, s2, (_, some err)⟩ =>
        ⟨t0 ++ t1 ++ t2 ++ t3 ++ failureLog stackName err, s2, .exited 1⟩
      | ⟨t3, s2, (_, none)⟩ =>
        ⟨t0 ++ t1 ++ t2 ++ t3 ++ [successLog stackName], s2, .ret ()⟩

/-- The loop of `deploy` over `deploycfg.Stacks`. -/
def deployLoop {σ : Type} (cfn : Env σ) : List GoMap → σ → Run σ (Res Unit)
  | [], s => ⟨[], s, .ret ()⟩
  | stack :: rest, s =>
    match deployStack cfn stack s with
    | ⟨t, s1, .exited code⟩ => ⟨t, s1, .exited code⟩
    | ⟨t, s1, .ret ()⟩ =>
      let r := deployLoop cfn rest s1
      ⟨t ++ r.trace, r.state, r.val⟩

/-- The function `deploy`. -/
def deploy {σ : Type} (cfn : Env σ) (deploycfg : DeployConfig) (s : σ) : Run σ (Res Unit) :=
  deployLoop cfn deploycfg.Stacks s

/-! ## Reading a trace -/

/-- A provisioning request submitted to the service. -/
inductive Request where
  | create (input : CreateStackInput)
  | update (input : UpdateStackInput)
deriving DecidableEq, Repr

/-- The stack a request names. -/
def Request.stackName : Request → Option String
  | .create input => input.StackName
  | .update input => input.StackName

/-- The file names of the template loads of a trace, in order. -/
def loadsOf (t : List Event) : List String :=
  t.filterMap fun e => match e with
    | .parseTemplate filename _ => some filename
    | _ => none

/-- The stack names of the inventory scans of a trace, in order. -/
def scansOf (t : List Event) : List String :=
  t.filterMap fun e => match e with
    | .stackExists stackName => some stackName
    | _ => none

/-- The create and update requests of a trace, in order. -/
def requestsOf (t : List Event) : List Request :=
  t.filterMap fun e => match e with
    | .createStack input _ => some (.create input)
    | .updateStack input _ => some (.update input)
    | _ => none

/-- The describe requests and wait bounds handed to the waiters, in order. -/
def waitsOf (t : List Event) : List (DescribeStacksInput × Duration) :=
  t.filterMap fun e => match e with
    | .waitCreate input maxWaitDur _ => some (input, maxWaitDur)
    | .waitUpdate input maxWaitDur _ => some (input, maxWaitDur)
    | _ => none

/-- The lines logged in green: one for each stack reported as deployed. -/
def successesOf (t : List Event) : List Event :=
  t.filter fun e => match e with
    | .print .green _ => true
    | _ => false

/-- A create or update operation failed, at submission or while waiting. -/
def opFailed : Event → Bool
  | .createStack _ (.error _) => true
  | .updateStack _ (.error _) => true
  | .waitCreate _ _ (some _) => true
  | .waitUpdate _ _ (some _) => true
  | _ => false

/-- A page fetch of an inventory scan failed. -/
def scanFailed : Event → Bool
  | .listStacks (.error _) => true
  | _ => false

/-- The template of an entry can be read. -/
def loads {σ : Type} (cfn : Env σ) (stack : GoMap) : Bool :=
  match cfn.ReadFile (stack.index "template") with
  | .ok _ => true
  | .error _ => false

/-- Some entry of some page is named `stackName` and is not `DELETE_COMPLETE`. -/
def Listed (stackName : String) (pages : List PageResult) : Prop :=
  ∃ page, PageResult.ok page ∈ pages ∧
    ∃ stack ∈ page, stack.StackName = stackName ∧ stack.StackStatus ≠ "DELETE_COMPLETE"

/-- The request `deploy` submits for a name once the scan answered `ex`. -/
def expectedRequest (ex : Bool) (stackName template : String) : Request :=
  if ex then .update ⟨some stackName, some template, capabilities⟩
  else .create ⟨some stackName, some template, capabilities⟩

/-- The operation `deploy` dispatches once the scan answered `ex`, with the
error it returns: `updateStack` for true, `createStack` for false. -/
def dispatch {σ : Type} (cfn : Env σ) (ex : Bool) (stackName template : String) (s : σ) :
    Run σ (Option GoError) :=
  if ex then
    let r := updateStack cfn stackName template s
    ⟨r.trace, r.state, r.val.2⟩
  else
    let r := createStack cfn stackName template s
    ⟨r.trace, r.state, r.val.2⟩

/-- The line `deploy` logs between the scan and the operation. -/
def announce (ex : Bool) (stackName : String) : Event :=
  if ex then .print .plain ("Stack " ++ stackName ++ " exists, attempting to update.")
  else .print .plain ("Stack " ++ stackName ++ " does not exists, creating.")

/-- The events of an iteration of `deploy` up to the scan. -/
def preamble {σ : Type} (cfn : Env σ) (stack : GoMap) : List Event :=
  [.parseTemplate (stack.index "template") (cfn.ReadFile (stack.index "template")),
   .print .plain ("Checking if stack " ++ stack.index "name" ++ " exists")]

/-! ## A fake service, for concrete runs -/

/-- Template files on disk in the concrete runs. -/
def files : List (String × String) := [("a.yml", "TA"), ("b.yml", "TB"), ("c.yml", "TC")]

/-- An in-memory service: its state is the inventory, listed one entry per
page (one empty page when there is none); a submission for a name in `rejected` is refused, any other one is accepted
and a create records the stack; an operation is complete after one second. -/
def fakeEnv (files : List (String × String)) (rejected : List String) :
    Env (List StackSummary) where
  ReadFile := fun filename =>
    match files.lookup filename with
    | some body => .ok body
    | none => .error ("open " ++ filename ++ ": no such file or directory")
  ListStacks := fun s => if s.isEmpty then [.ok []] else s.map fun e => .ok [e]
  SubmitCreate := fun input s =>
    if input.StackName.getD "" ∈ rejected then
      (.error "https response error StatusCode: 400, api error ValidationError", s)
    else (.ok ⟨input.StackName⟩, s ++ [⟨input.StackName.getD "", "CREATE_COMPLETE"⟩])
  SubmitUpdate := fun input s =>
    if input.StackName.getD "" ∈ rejected then
      (.error "https response error StatusCode: 400, api error ValidationError", s)
    else (.ok ⟨input.StackName⟩, s)
  PollCreate := fun _ maxWaitDur s => (if maxWaitDur < Second then .timeout else .success, s)
  PollUpdate := fun _ maxWaitDur s => (if maxWaitDur < Second then .timeout else .success, s)

/-- The fake service with an inventory listing that answers `pages` in every
state. -/
def listingEnv (pages : List PageResult) : Env (List StackSummary) :=
  { fakeEnv files [] with ListStacks := fun _ => pages }

/-- An inventory whose second page fetch fails. -/
def brokenPages : List PageResult :=
  [.ok [⟨"a", "CREATE_COMPLETE"⟩], .error "RequestError: send request failed",
   .ok [⟨"web", "CREATE_COMPLETE"⟩]]

/-- Five pages of one entry each; `web` is on the last one only and `c` is
listed as deleted only. -/
def fivePages : List PageResult :=
  [.ok [⟨"a", "CREATE_COMPLETE"⟩], .ok [⟨"b", "UPDATE_COMPLETE"⟩], .ok [⟨"c", "DELETE_COMPLETE"⟩],
   .ok [⟨"d", "CREATE_COMPLETE"⟩], .ok [⟨"web", "CREATE_COMPLETE"⟩]]

/-- The stack list A, B, C, all with a readable template. -/
def stacksABC : List GoMap :=
  [[("name", "A"), ("template", "a.yml")], [("name", "B"), ("template", "b.yml")],
   [("name", "C"), ("template", "c.yml")]]

/-- The stack list A, B, C where the template path of B is missing. -/
def stacksAmissingC : List GoMap :=
  [[("name", "A"), ("template", "a.yml")], [("name", "B"), ("template", "missing.yml")],
   [("name", "C"), ("template", "c.yml")]]

/-- The stack list B, C where the template path of B is missing. -/
def stacksMissingC : List GoMap :=
  [[("name", "B"), ("template", "missing.yml")], [("name", "C"), ("template", "c.yml")]]

/-- The configuration deploying A, B, C. -/
def cfgABC : DeployConfig := ⟨"default", stacksABC⟩

/-- The configuration deploying A, B, C where the template of B is missing. -/
def cfgAmissingC : DeployConfig := ⟨"default", stacksAmissingC⟩

/-- The configuration deploying B, C where the template of B is missing. -/
def cfgMissingC : DeployConfig := ⟨"default", stacksMissingC⟩

/-! # Theorems -/

/-! ## The inventory scan -/

theorem scanPage_eq_true_iff (stackName : String) (page : List StackSummary) :
    scanPage stackName page = true ↔
      ∃ stack ∈ page, stack.StackName = stackName ∧ stack.StackStatus ≠ "DELETE_COMPLETE" := by
  induction page with
  | nil => simp [scanPage]
  | cons st rest ih =>
    unfold scanPage
    by_cases hd : st.StackStatus = "DELETE_COMPLETE"
    · simp only [hd, if_true, ih, List.mem_cons]
      constructor
      · rintro ⟨x, hx, h1, h2⟩
        exact ⟨x, Or.inr hx, h1, h2⟩
      · rintro ⟨x, hx | hx, h1, h2⟩
        · subst hx
          exact absurd hd h2
        · exact ⟨x, hx, h1, h2⟩
    · by_cases hn : st.StackName = stackName
      · simp only [hd, hn, if_false, if_true, true_iff]
        exact ⟨st, List.mem_cons_self _ _, hn, hd⟩
      · simp only [hd, hn, if_false, ih, List.mem_cons]
        constructor
        · rintro ⟨x, hx, h1, h2⟩
          exact ⟨x, Or.inr hx, h1, h2⟩
        · rintro ⟨x, hx | hx, h1, h2⟩
          · subst hx
            exact absurd h1 hn
          · exact ⟨x, hx, h1, h2⟩

theorem listed_cons_ok (stackName : String) (page : List StackSummary) (rest : List PageResult) :
    Listed stackName (.ok page :: rest) ↔
      scanPage stackName page = true ∨ Listed stackName rest := by
  rw [scanPage_eq_true_iff]
  unfold Listed
  constructor
  · rintro ⟨pg, hpg, hx⟩
    rcases List.mem_cons.mp hpg with h | h
    · left
      cases h
      exact hx
    · right
      exact ⟨pg, h, hx⟩
  · rintro (hx | ⟨pg, hpg, hx⟩)
    · exact ⟨page, List.mem_cons_self _ _, hx⟩
    · exact ⟨pg, List.mem_cons_of_mem _ hpg, hx⟩

theorem scanPages_all_ok (stackName : String) (pages : List PageResult)
    (h : ∀ r ∈ pages, ∃ page, r = .ok page) :
    ((scanPages stackName pages).2 = .ret true ↔ Listed stackName pages) ∧
    ((scanPages stackName pages).2 = .ret false ↔ ¬ Listed stackName pages) := by
  induction pages with
  | nil => simp [scanPages, Listed]
  | cons r rest ih =>
    obtain ⟨page, rfl⟩ := h r (List.mem_cons_self _ _)
    have ih := ih (fun r hr => h r (List.mem_cons_of_mem _ hr))
    rw [listed_cons_ok]
    unfold scanPages
    by_cases hp : scanPage stackName page = true
    · simp [hp]
    · simp only [hp, if_false, false_or, Bool.false_eq_true]
      exact ih

theorem scanPages_ret_false (stackName : String) (pages : List PageResult)
    (h : (scanPages stackName pages).2 = .ret false) :
    ∀ r ∈ pages, ∃ page, r = .ok page := by
  induction pages with
  | nil => simp
  | cons r rest ih =>
    cases r with
    | error err => simp [scanPages] at h
    | ok page =>
      unfold scanPages at h
      by_cases hp : scanPage stackName page = true
      · simp [hp] at h
      · simp only [hp, if_false, Bool.false_eq_true] at h
        intro r hr
        rcases List.mem_cons.mp hr with h1 | h1
        · exact ⟨page, h1⟩
        · exact ih h r h1

theorem scanPages_reaches_error (stackName : String) (pre : List (List StackSummary))
    (err : GoError) (post : List PageResult)
    (h : ¬ Listed stackName (pre.map .ok)) :
    (scanPages stackName (pre.map .ok ++ .error err :: post)).2 = .exited 1 ∧
    (scanPages stackName (pre.map .ok ++ .error err :: post)).1.getLast? =
      some (.fatal .plain err) := by
  induction pre with
  | nil => simp [scanPages]
  | cons page rest ih =>
    simp only [List.map_cons, listed_cons_ok, not_or] at h
    simp only [List.map_cons, List.cons_append]
    unfold scanPages
    simp only [h.1, if_false]
    refine ⟨(ih h.2).1, ?_⟩
    have h2 := (ih h.2).2
    cases hl : (scanPages stackName (List.map PageResult.ok rest ++ .error err :: post)).1 with
    | nil => simp [hl] at h2
    | cons a l =>
      rw [hl] at h2
      simpa [List.getLast?_cons_cons] using h2

/-- C1: when every page of the inventory is fetched without error,
`stackExists` returns true exactly when some entry of some page (the last one
included) is named `stackName` and is not `DELETE_COMPLETE`, and returns false
exactly when there is no such entry. -/
theorem stackExists_iff_listed {σ : Type} (cfn : Env σ) (stackName : String) (s : σ)
    (h : ∀ r ∈ cfn.ListStacks s, ∃ page, r = .ok page) :
    ((stackExists cfn stackName s).val = .ret true ↔ Listed stackName (cfn.ListStacks s)) ∧
    ((stackExists cfn stackName s).val = .ret false ↔ ¬ Listed stackName (cfn.ListStacks s)) :=
  scanPages_all_ok stackName (cfn.ListStacks s) h

/-- The five-page inventory resolves a name found on its last page only. -/
theorem stackExists_iff_listed_witness :
    (∀ r ∈ (listingEnv fivePages).ListStacks [], ∃ page, r = .ok page) ∧
    (stackExists (listingEnv fivePages) "web" []).val = .ret true ∧
    (stackExists (listingEnv fivePages) "c" []).val = .ret false := by
  have hok : ∀ r ∈ (listingEnv fivePages).ListStacks [], ∃ page, r = .ok page := by
    intro r hr
    simp only [listingEnv, fivePages, List.mem_cons, List.mem_singleton, List.not_mem_nil,
      or_false] at hr
    rcases hr with h | h | h | h | h <;> exact ⟨_, h⟩
  refine ⟨hok, ?_, ?_⟩
  · exact (stackExists_iff_listed (listingEnv fivePages) "web" [] hok).1.mpr
      ⟨[⟨"web", "CREATE_COMPLETE"⟩], by simp [listingEnv, fivePages],
        ⟨"web", "CREATE_COMPLETE"⟩, by simp, rfl, by decide⟩
  · exact (stackExists_iff_listed (listingEnv fivePages) "c" [] hok).2.mpr (by
      rintro ⟨page, hp, st, hst, h1, h2⟩
      simp only [listingEnv, fivePages, List.mem_cons, List.mem_singleton, List.not_mem_nil,
        or_false, PageResult.ok.injEq] at hp
      rcases hp with h | h | h | h | h <;> subst h <;>
        simp only [List.mem_singleton] at hst <;> subst hst <;> revert h1 h2 <;> decide)

/-- C2: `stackExists` returns false only if every page of the inventory was
fetched without error; when the scan reaches a page fetch that fails it ends in
`log.Fatal` with that error and exit code 1, and yields no answer. -/
theorem stackExists_false_only_if_complete {σ : Type} (cfn : Env σ) (stackName : String) (s : σ) :
    ((stackExists cfn stackName s).val = .ret false →
      ∀ r ∈ cfn.ListStacks s, ∃ page, r = .ok page) ∧
    (∀ (pre : List (List StackSummary)) (err : GoError) (post : List PageResult),
      cfn.ListStacks s = pre.map .ok ++ .error err :: post →
      ¬ Listed stackName (pre.map .ok) →
      (stackExists cfn stackName s).val = .exited 1 ∧
      (stackExists cfn stackName s).trace.getLast? = some (.fatal .plain err) ∧
      (stackExists cfn stackName s).val ≠ .ret false) := by
  refine ⟨scanPages_ret_false stackName _, ?_⟩
  intro pre err post hl hn
  have h := scanPages_reaches_error stackName pre err post hn
  rw [← hl] at h
  refine ⟨h.1, ?_, ?_⟩
  · show (Event.stackExists stackName :: (scanPages stackName (cfn.ListStacks s)).1).getLast? = _
    cases hc : (scanPages stackName (cfn.ListStacks s)).1 with
    | nil => rw [hc] at h; simp at h
    | cons a l =>
      rw [List.getLast?_cons_cons, ← hc]
      exact h.2
  · show (scanPages stackName (cfn.ListStacks s)).2 ≠ _
    rw [h.1]
    simp

/-- A scan whose second page fetch fails ends the process and gives no answer. -/
theorem stackExists_false_only_if_complete_witness :
    (stackExists (listingEnv brokenPages) "web" []).val = .exited 1 ∧
    (stackExists (listingEnv brokenPages) "web" []).val ≠ .ret false := by
  have h := (stackExists_false_only_if_complete (listingEnv brokenPages) "web" []).2
    [[⟨"a", "CREATE_COMPLETE"⟩]] "RequestError: send request failed"
    [.ok [⟨"web", "CREATE_COMPLETE"⟩]] rfl (by
      rintro ⟨page, hp, st, hst, h1, h2⟩
      simp only [List.map_cons, List.map_nil, List.mem_singleton, PageResult.ok.injEq] at hp
      subst hp
      simp only [List.mem_singleton] at hst
      subst hst
      revert h1
      decide)
  exact ⟨h.1, h.2.2⟩

/-! ## The trace of `createStack` and `updateStack` -/

theorem createStack_cases {σ : Type} (cfn : Env σ) (stackName template : String) (s : σ) :
    (∃ err s1, cfn.CreateStack ⟨some stackName, some template, capabilities⟩ s = (.error err, s1) ∧
      createStack cfn stackName template s =
        ⟨[.createStack ⟨some stackName, some template, capabilities⟩ (.error err)], s1,
          (⟨none⟩, some err)⟩) ∨
    (∃ response s1 err s2,
      cfn.CreateStack ⟨some stackName, some template, capabilities⟩ s = (.ok response, s1) ∧
      cfn.WaitCreate ⟨none, none⟩ 600 s1 = (some err, s2) ∧
      createStack cfn stackName template s =
        ⟨[.createStack ⟨some stackName, some template, capabilities⟩ (.ok response),
          .waitCreate ⟨none, none⟩ 600 (some err)], s2, (⟨none⟩, some err)⟩) ∨
    (∃ response s1 s2,
      cfn.CreateStack ⟨some stackName, some template, capabilities⟩ s = (.ok response, s1) ∧
      cfn.WaitCreate ⟨none, none⟩ 600 s1 = (none, s2) ∧
      createStack cfn stackName template s =
        ⟨[.createStack ⟨some stackName, some template, capabilities⟩ (.ok response),
          .waitCreate ⟨none, none⟩ 600 none], s2, (response, none)⟩) := by
  rcases hc : cfn.CreateStack ⟨some stackName, some template, capabilities⟩ s with ⟨r, s1⟩
  cases r with
  | error err =>
    refine Or.inl ⟨err, s1, rfl, ?_⟩
    simp only [createStack, hc]
  | ok response =>
    rcases hw : cfn.WaitCreate ⟨none, none⟩ 600 s1 with ⟨w, s2⟩
    cases w with
    | some err =>
      refine Or.inr (Or.inl ⟨response, s1, err, s2, rfl, hw, ?_⟩)
      simp only [createStack, hc, hw]
    | none =>
      refine Or.inr (Or.inr ⟨response, s1, s2, rfl, hw, ?_⟩)
      simp only [createStack, hc, hw]

theorem updateStack_cases {σ : Type} (cfn : Env σ) (stackName template : String) (s : σ) :
    (∃ err s1, cfn.UpdateStack ⟨some stackName, some template, capabilities⟩ s = (.error err, s1) ∧
      updateStack cfn stackName template s =
        ⟨[.updateStack ⟨some stackName, some template, capabilities⟩ (.error err)], s1,
          (⟨none⟩, some err)⟩) ∨
    (∃ response s1 err s2,
      cfn.UpdateStack ⟨some stackName, some template, capabilities⟩ s = (.ok response, s1) ∧
      cfn.WaitUpdate ⟨none, none⟩ 600 s1 = (some err, s2) ∧
      updateStack cfn stackName template s =
        ⟨[.updateStack ⟨some stackName, some template, capabilities⟩ (.ok response),
          .waitUpdate ⟨none, none⟩ 600 (some err)], s2, (⟨none⟩, some err)⟩) ∨
    (∃ response s1 s2,
      cfn.UpdateStack ⟨some stackName, some template, capabilities⟩ s = (.ok response, s1) ∧
      cfn.WaitUpdate ⟨none, none⟩ 600 s1 = (none, s2) ∧
      updateStack cfn stackName template s =
        ⟨[.updateStack ⟨some stackName, some template, capabilities⟩ (.ok response),
          .waitUpdate ⟨none, none⟩ 600 none], s2, (response, none)⟩) := by
  rcases hc : cfn.UpdateStack ⟨some stackName, some template, capabilities⟩ s with ⟨r, s1⟩
  cases r with
  | error err =>
    refine Or.inl ⟨err, s1, rfl, ?_⟩
    simp only [updateStack, hc]
  | ok response =>
    rcases hw : cfn.WaitUpdate ⟨none, none⟩ 600 s1 with ⟨w, s2⟩
    cases w with
    | some err =>
      refine Or.inr (Or.inl ⟨response, s1, err, s2, rfl, hw, ?_⟩)
      simp only [updateStack, hc, hw]
    | none =>
      refine Or.inr (Or.inr ⟨response, s1, s2, rfl, hw, ?_⟩)
      simp only [updateStack, hc, hw]

/-- What the projections of a trace read off a dispatched operation. -/
theorem dispatch_trace {σ : Type} (cfn : Env σ) (ex : Bool) (stackName template : String)
    (s : σ) :
    loadsOf (dispatch cfn ex stackName template s).trace = [] ∧
    scansOf (dispatch cfn ex stackName template s).trace = [] ∧
    successesOf (dispatch cfn ex stackName template s).trace = [] ∧
    requestsOf (dispatch cfn ex stackName template s).trace =
      [expectedRequest ex stackName template] ∧
    (∀ e ∈ (dispatch cfn ex stackName template s).trace, scanFailed e = false) ∧
    ((dispatch cfn ex stackName template s).val = none ↔
      ∀ e ∈ (dispatch cfn ex stackName template s).trace, opFailed e = false) := by
  cases ex with
  | true =>
    rcases updateStack_cases cfn stackName template s with
      ⟨err, s1, -, h⟩ | ⟨response, s1, err, s2, -, -, h⟩ | ⟨response, s1, s2, -, -, h⟩ <;>
    simp [dispatch, h, loadsOf, scansOf, successesOf, requestsOf, expectedRequest, scanFailed,
      opFailed]
  | false =>
    rcases createStack_cases cfn stackName template s with
      ⟨err, s1, -, h⟩ | ⟨response, s1, err, s2, -, -, h⟩ | ⟨response, s1, s2, -, -, h⟩ <;>
    simp [dispatch, h, loadsOf, scansOf, successesOf, requestsOf, expectedRequest, scanFailed,
      opFailed]

/-- What the projections of a trace read off an inventory scan. -/
theorem scanPages_trace (stackName : String) (pages : List PageResult) :
    loadsOf (scanPages stackName pages).1 = [] ∧
    scansOf (scanPages stackName pages).1 = [] ∧
    successesOf (scanPages stackName pages).1 = [] ∧
    requestsOf (scanPages stackName pages).1 = [] ∧
    (∀ e ∈ (scanPages stackName pages).1, opFailed e = false) ∧
    ((∃ ex, (scanPages stackName pages).2 = .ret ex) ↔
      ∀ e ∈ (scanPages stackName pages).1, scanFailed e = false) ∧
    (∀ code, (scanPages stackName pages).2 = .exited code → code = 1) := by
  induction pages with
  | nil => simp [scanPages, loadsOf, scansOf, successesOf, requestsOf]
  | cons r rest ih =>
    cases r with
    | error err =>
      simp [scanPages, loadsOf, scansOf, successesOf, requestsOf, opFailed, scanFailed]
    | ok page =>
      unfold scanPages
      by_cases hp : scanPage stackName page = true
      · simp [hp, loadsOf, scansOf, successesOf, requestsOf, opFailed, scanFailed]
      · obtain ⟨h1, h2, h3, h4, h5, h6, h7⟩ := ih
        simp only [hp, if_false, Bool.false_eq_true]
        refine ⟨?_, ?_, ?_, ?_, ?_, ?_, h7⟩
        · simpa [loadsOf] using h1
        · simpa [scansOf] using h2
        · simpa [successesOf] using h3
        · simpa [requestsOf] using h4
        · intro e he
          rcases List.mem_cons.mp he with h | h
          · subst h; rfl
          · exact h5 e h
        · rw [h6]
          simp [scanFailed]

/-! ## One iteration of `deploy` -/

theorem deployStack_unreadable {σ : Type} (cfn : Env σ) (stack : GoMap) (s : σ) (err : GoError)
    (h : cfn.ReadFile (stack.index "template") = .error err) :
    deployStack cfn stack s =
      ⟨[.parseTemplate (stack.index "template") (.error err), .print .yellow err], s, .ret ()⟩ := by
  simp only [deployStack, parseTemplate, h]

theorem deployStack_scan_exited {σ : Type} (cfn : Env σ) (stack : GoMap) (s : σ)
    (template : String) (code : Nat)
    (h : cfn.ReadFile (stack.index "template") = .ok template)
    (hs : (stackExists cfn (stack.index "name") s).val = .exited code) :
    deployStack cfn stack s =
      ⟨preamble cfn stack ++ (stackExists cfn (stack.index "name") s).trace, s, .exited code⟩ := by
  simp only [stackExists] at hs
  simp only [deployStack, parseTemplate, h, stackExists, hs, preamble]

theorem deployStack_dispatch {σ : Type} (cfn : Env σ) (stack : GoMap) (s : σ)
    (template : String) (ex : Bool)
    (h : cfn.ReadFile (stack.index "template") = .ok template)
    (hs : (stackExists cfn (stack.index "name") s).val = .ret ex) :
    deployStack cfn stack s =
      match (dispatch cfn ex (stack.index "name") template s).val with
      | some err =>
        ⟨preamble cfn stack ++ (stackExists cfn (stack.index "name") s).trace ++
            [announce ex (stack.index "name")] ++
            (dispatch cfn ex (stack.index "name") template s).trace ++
            failureLog (stack.index "name") err,
          (dispatch cfn ex (stack.index "name") template s).state, .exited 1⟩
      | none =>
        ⟨preamble cfn stack ++ (stackExists cfn (stack.index "name") s).trace ++
            [announce ex (stack.index "name")] ++
            (dispatch cfn ex (stack.index "name") template s).trace ++
            [successLog (stack.index "name")],
          (dispatch cfn ex (stack.index "name") template s).state, .ret ()⟩ := by
  simp only [stackExists] at hs
  cases ex with
  | true =>
    simp only [deployStack, parseTemplate, h, stackExists, hs, preamble, dispatch, announce,
      if_true]
    generalize updateStack cfn (stack.index "name") template s = u
    rcases u with ⟨t3, s2, out, _ | err⟩ <;> rfl
  | false =>
    simp only [deployStack, parseTemplate, h, stackExists, hs, preamble, dispatch, announce,
      Bool.false_eq_true, if_false]
    generalize createStack cfn (stack.index "name") template s = u
    rcases u with ⟨t3, s2, out, _ | err⟩ <;> rfl

theorem deployStack_shape {σ : Type} (cfn : Env σ) (stack : GoMap) (s : σ) :
    (∃ err, cfn.ReadFile (stack.index "template") = .error err ∧
      deployStack cfn stack s =
        ⟨[.parseTemplate (stack.index "template") (.error err), .print .yellow err], s,
          .ret ()⟩) ∨
    (∃ template code, cfn.ReadFile (stack.index "template") = .ok template ∧
      (stackExists cfn (stack.index "name") s).val = .exited code ∧
      deployStack cfn stack s =
        ⟨preamble cfn stack ++ (stackExists cfn (stack.index "name") s).trace, s,
          .exited code⟩) ∨
    (∃ template ex err, cfn.ReadFile (stack.index "template") = .ok template ∧
      (stackExists cfn (stack.index "name") s).val = .ret ex ∧
      (dispatch cfn ex (stack.index "name") template s).val = some err ∧
      deployStack cfn stack s =
        ⟨preamble cfn stack ++ (stackExists cfn (stack.index "name") s).trace ++
            [announce ex (stack.index "name")] ++
            (dispatch cfn ex (stack.index "name") template s).trace ++
            failureLog (stack.index "name") err,
          (dispatch cfn ex (stack.index "name") template s).state, .exited 1⟩) ∨
    (∃ template ex, cfn.ReadFile (stack.index "template") = .ok template ∧
      (stackExists cfn (stack.index "name") s).val = .ret ex ∧
      (dispatch cfn ex (stack.index "name") template s).val = none ∧
      deployStack cfn stack s =
        ⟨preamble cfn stack ++ (stackExists cfn (stack.index "name") s).trace ++
            [announce ex (stack.index "name")] ++
            (dispatch cfn ex (stack.index "name") template s).trace ++
            [successLog (stack.index "name")],
          (dispatch cfn ex (stack.index "name") template s).state, .ret ()⟩) := by
  cases h : cfn.ReadFile (stack.index "template") with
  | error err => exact Or.inl ⟨err, rfl, deployStack_unreadable cfn stack s err h⟩
  | ok template =>
    cases hs : (stackExists cfn (stack.index "name") s).val with
    | exited code =>
      exact Or.inr (Or.inl ⟨template, code, rfl, rfl,
        deployStack_scan_exited cfn stack s template code h hs⟩)
    | ret ex =>
      have hd := deployStack_dispatch cfn stack s template ex h hs
      cases hv : (dispatch cfn ex (stack.index "name") template s).val with
      | some err =>
        rw [hv] at hd
        exact Or.inr (Or.inr (Or.inl ⟨template, ex, err, rfl, rfl, hv, hd⟩))
      | none =>
        rw [hv] at hd
        exact Or.inr (Or.inr (Or.inr ⟨template, ex, rfl, rfl, hv, hd⟩))

/-! ## Projections of a trace -/

theorem loadsOf_append (a b : List Event) : loadsOf (a ++ b) = loadsOf a ++ loadsOf b := by
  simp [loadsOf, List.filterMap_append]

theorem scansOf_append (a b : List Event) : scansOf (a ++ b) = scansOf a ++ scansOf b := by
  simp [scansOf, List.filterMap_append]

theorem requestsOf_append (a b : List Event) :
    requestsOf (a ++ b) = requestsOf a ++ requestsOf b := by
  simp [requestsOf, List.filterMap_append]

theorem successesOf_append (a b : List Event) :
    successesOf (a ++ b) = successesOf a ++ successesOf b := by
  simp [successesOf, List.filter_append]

/-- What the projections of a trace read off a call of `stackExists`. -/
theorem stackExists_trace {σ : Type} (cfn : Env σ) (stackName : String) (s : σ) :
    loadsOf (stackExists cfn stackName s).trace = [] ∧
    scansOf (stackExists cfn stackName s).trace = [stackName] ∧
    successesOf (stackExists cfn stackName s).trace = [] ∧
    requestsOf (stackExists cfn stackName s).trace = [] ∧
    (∀ e ∈ (stackExists cfn stackName s).trace, opFailed e = false) ∧
    ((∃ ex, (stackExists cfn stackName s).val = .ret ex) ↔
      ∀ e ∈ (stackExists cfn stackName s).trace, scanFailed e = false) ∧
    (∀ code, (stackExists cfn stackName s).val = .exited code → code = 1) := by
  obtain ⟨h1, h2, h3, h4, h5, h6, h7⟩ := scanPages_trace stackName (cfn.ListStacks s)
  simp only [stackExists]
  refine ⟨?_, ?_, ?_, ?_, ?_, ?_, h7⟩
  · simpa [loadsOf] using h1
  · simpa [scansOf] using h2
  · simpa [successesOf] using h3
  · simpa [requestsOf] using h4
  · intro e he
    rcases List.mem_cons.mp he with h | h
    · subst h; rfl
    · exact h5 e h
  · rw [h6]
    simp [scanFailed]

theorem preamble_trace {σ : Type} (cfn : Env σ) (stack : GoMap) :
    loadsOf (preamble cfn stack) = [stack.index "template"] ∧
    scansOf (preamble cfn stack) = [] ∧
    successesOf (preamble cfn stack) = [] ∧
    requestsOf (preamble cfn stack) = [] ∧
    (∀ e ∈ preamble cfn stack, opFailed e = false) ∧
    (∀ e ∈ preamble cfn stack, scanFailed e = false) := by
  simp [preamble, loadsOf, scansOf, successesOf, requestsOf, opFailed, scanFailed]

theorem announce_trace (ex : Bool) (stackName : String) :
    loadsOf [announce ex stackName] = [] ∧
    scansOf [announce ex stackName] = [] ∧
    successesOf [announce ex stackName] = [] ∧
    requestsOf [announce ex stackName] = [] ∧
    opFailed (announce ex stackName) = false ∧
    scanFailed (announce ex stackName) = false := by
  cases ex <;> simp [announce, loadsOf, scansOf, successesOf, requestsOf, opFailed, scanFailed]

theorem failureLog_trace (stackName : String) (err : GoError) :
    loadsOf (failureLog stackName err) = [] ∧
    scansOf (failureLog stackName err) = [] ∧
    successesOf (failureLog stackName err) = [] ∧
    requestsOf (failureLog stackName err) = [] := by
  simp [failureLog, loadsOf, scansOf, successesOf, requestsOf]

theorem successLog_trace (stackName : String) :
    loadsOf [successLog stackName] = [] ∧
    scansOf [successLog stackName] = [] ∧
    successesOf [successLog stackName] = [successLog stackName] ∧
    requestsOf [successLog stackName] = [] ∧
    opFailed (successLog stackName) = false ∧
    scanFailed (successLog stackName) = false := by
  simp [successLog, loadsOf, scansOf, successesOf, requestsOf, opFailed, scanFailed]

theorem expectedRequest_stackName (ex : Bool) (stackName template : String) :
    (expectedRequest ex stackName template).stackName = some stackName := by
  cases ex <;> rfl

/-! ## What one iteration leaves in the trace -/

theorem deployStack_loadsOf {σ : Type} (cfn : Env σ) (stack : GoMap) (s : σ) :
    loadsOf (deployStack cfn stack s).trace = [stack.index "template"] := by
  obtain ⟨p1, -⟩ := preamble_trace cfn stack
  obtain ⟨e1, -⟩ := stackExists_trace cfn (stack.index "name") s
  rcases deployStack_shape cfn stack s with
    ⟨err, -, hD⟩ | ⟨template, code, -, -, hD⟩ | ⟨template, ex, err, -, -, -, hD⟩ |
    ⟨template, ex, -, -, -, hD⟩
  · rw [hD]; simp [loadsOf]
  · rw [hD]; simp only [loadsOf_append, p1, e1, List.append_nil]
  · obtain ⟨d1, -⟩ := dispatch_trace cfn ex (stack.index "name") template s
    rw [hD]
    simp only [loadsOf_append, p1, e1, d1, (announce_trace ex (stack.index "name")).1,
      (failureLog_trace (stack.index "name") err).1, List.append_nil]
  · obtain ⟨d1, -⟩ := dispatch_trace cfn ex (stack.index "name") template s
    rw [hD]
    simp only [loadsOf_append, p1, e1, d1, (announce_trace ex (stack.index "name")).1,
      (successLog_trace (stack.index "name")).1, List.append_nil]

/-! ## The loop of `deploy` -/

theorem deployLoop_cons_ret {σ : Type} (cfn : Env σ) (stack : GoMap) (rest : List GoMap) (s : σ)
    (h : (deployStack cfn stack s).val = .ret ()) :
    deployLoop cfn (stack :: rest) s =
      ⟨(deployStack cfn stack s).trace ++
          (deployLoop cfn rest (deployStack cfn stack s).state).trace,
        (deployLoop cfn rest (deployStack cfn stack s).state).state,
        (deployLoop cfn rest (deployStack cfn stack s).state).val⟩ := by
  rcases hD : deployStack cfn stack s with ⟨t, s1, v⟩
  rw [hD] at h
  simp only at h
  subst h
  simp only [deployLoop, hD]

theorem deployLoop_cons_exited {σ : Type} (cfn : Env σ) (stack : GoMap) (rest : List GoMap)
    (s : σ) (code : Nat) (h : (deployStack cfn stack s).val = .exited code) :
    deployLoop cfn (stack :: rest) s = deployStack cfn stack s := by
  rcases hD : deployStack cfn stack s with ⟨t, s1, v⟩
  rw [hD] at h
  simp only at h
  subst h
  simp only [deployLoop, hD]

theorem deployLoop_append_ret {σ : Type} (cfn : Env σ) (pre post : List GoMap) (s0 : σ)
    (h : (deployLoop cfn pre s0).val = .ret ()) :
    deployLoop cfn (pre ++ post) s0 =
      ⟨(deployLoop cfn pre s0).trace ++ (deployLoop cfn post (deployLoop cfn pre s0).state).trace,
        (deployLoop cfn post (deployLoop cfn pre s0).state).state,
        (deployLoop cfn post (deployLoop cfn pre s0).state).val⟩ := by
  induction pre generalizing s0 with
  | nil => simp [deployLoop]
  | cons stack rest ih =>
    cases hv : (deployStack cfn stack s0).val with
    | exited code =>
      rw [deployLoop_cons_exited cfn stack rest s0 code hv, hv] at h
      simp at h
    | ret u =>
      rw [deployLoop_cons_ret cfn stack rest s0 hv] at h ⊢
      simp only at h
      rw [List.cons_append, deployLoop_cons_ret cfn stack (rest ++ post) s0 hv, ih _ h]
      simp only [List.append_assoc]

/-- An iteration whose template loads and whose scan answers submits the one
request the answer selects. -/
theorem deployStack_requests {σ : Type} (cfn : Env σ) (stack : GoMap) (s : σ)
    (template : String) (ex : Bool)
    (h : cfn.ReadFile (stack.index "template") = .ok template)
    (hs : (stackExists cfn (stack.index "name") s).val = .ret ex) :
    requestsOf (deployStack cfn stack s).trace =
      [expectedRequest ex (stack.index "name") template] ∧
    scansOf (deployStack cfn stack s).trace = [stack.index "name"] := by
  obtain ⟨-, p2, -, p4, -, -⟩ := preamble_trace cfn stack
  obtain ⟨-, e2, -, e4, -, -, -⟩ := stackExists_trace cfn (stack.index "name") s
  obtain ⟨-, d2, -, d4, -, -⟩ := dispatch_trace cfn ex (stack.index "name") template s
  obtain ⟨-, a2, -, a4, -, -⟩ := announce_trace ex (stack.index "name")
  obtain ⟨-, l2, -, l4, -, -⟩ := successLog_trace (stack.index "name")
  have hd := deployStack_dispatch cfn stack s template ex h hs
  cases hv : (dispatch cfn ex (stack.index "name") template s).val with
  | some err =>
    obtain ⟨-, f2, -, f4⟩ := failureLog_trace (stack.index "name") err
    rw [hv] at hd
    rw [hd]
    simp only [scansOf_append, requestsOf_append, p2, p4, e2, e4, d2, d4, a2, a4, f2, f4,
      List.append_nil, List.nil_append, and_self]
  | none =>
    rw [hv] at hd
    rw [hd]
    simp only [scansOf_append, requestsOf_append, p2, p4, e2, e4, d2, d4, a2, a4, l2, l4,
      List.append_nil, List.nil_append, and_self]

theorem getLast?_append_failureLog (t : List Event) (stackName : String) (err : GoError) :
    (t ++ failureLog stackName err).getLast? = some (.fatal .red err) := by
  rw [List.getLast?_append]
  simp [failureLog, List.getLast?_cons_cons]

/-- An iteration whose operation returns an error ends the process. -/
theorem deployStack_op_failed {σ : Type} (cfn : Env σ) (stack : GoMap) (s : σ)
    (template : String) (ex : Bool) (err : GoError)
    (h : cfn.ReadFile (stack.index "template") = .ok template)
    (hs : (stackExists cfn (stack.index "name") s).val = .ret ex)
    (hv : (dispatch cfn ex (stack.index "name") template s).val = some err) :
    (deployStack cfn stack s).val = .exited 1 ∧
    successesOf (deployStack cfn stack s).trace = [] ∧
    (deployStack cfn stack s).trace.getLast? = some (.fatal .red err) := by
  obtain ⟨-, -, p3, -, -, -⟩ := preamble_trace cfn stack
  obtain ⟨-, -, e3, -, -, -, -⟩ := stackExists_trace cfn (stack.index "name") s
  obtain ⟨-, -, d3, -, -, -⟩ := dispatch_trace cfn ex (stack.index "name") template s
  obtain ⟨-, -, a3, -, -, -⟩ := announce_trace ex (stack.index "name")
  obtain ⟨-, -, f3, -⟩ := failureLog_trace (stack.index "name") err
  have hd := deployStack_dispatch cfn stack s template ex h hs
  rw [hv] at hd
  rw [hd]
  refine ⟨rfl, ?_, ?_⟩
  · simp only [successesOf_append, p3, e3, d3, a3, f3, List.append_nil]
  · exact getLast?_append_failureLog _ _ _

/-! ## The SDK layer: error texts and the bound of a wait -/

theorem ne_operationError (w operation cause : String) (h : w.data.head? ≠ some 'o') :
    w ≠ operationError operation cause := by
  intro heq
  apply h
  rw [heq]
  simp [operationError, String.data_append]

/-- No error of a waiter is the operation error of a create or update request. -/
theorem waiterError_ne_operationError (waiter : String) (w : WaitState) (err : GoError)
    (h : waiterError waiter w = some err) (cause : String) :
    err ≠ operationError "CreateStack" cause ∧ err ≠ operationError "UpdateStack" cause := by
  cases w with
  | success => simp [waiterError] at h
  | failure =>
    simp only [waiterError, Option.some.injEq] at h
    subst h
    exact ⟨ne_operationError _ _ _ (by decide), ne_operationError _ _ _ (by decide)⟩
  | timeout =>
    simp only [waiterError, Option.some.injEq] at h
    subst h
    exact ⟨ne_operationError _ _ _ (by simp [String.data_append]),
      ne_operationError _ _ _ (by simp [String.data_append])⟩
  | describeError c =>
    simp only [waiterError, Option.some.injEq] at h
    subst h
    constructor
    · intro h2
      have h3 := congrArg String.data h2
      simp [operationError, String.data_append] at h3
    · intro h2
      have h3 := congrArg String.data h2
      simp [operationError, String.data_append] at h3
  | transportError c =>
    simp only [waiterError, Option.some.injEq] at h
    subst h
    exact ⟨ne_operationError _ _ _ (by simp [String.data_append]),
      ne_operationError _ _ _ (by simp [String.data_append])⟩

theorem waiterWait_ne_operationError {σ : Type} (waiter : String)
    (poll : DescribeStacksInput → Duration → σ → WaitState × σ) (input : DescribeStacksInput)
    (maxWaitDur : Duration) (s : σ) (err : GoError)
    (h : (waiterWait waiter poll input maxWaitDur s).1 = some err) (cause : String) :
    err ≠ operationError "CreateStack" cause ∧ err ≠ operationError "UpdateStack" cause := by
  unfold waiterWait at h
  by_cases h0 : maxWaitDur ≤ 0
  · simp only [h0, if_true, Option.some.injEq] at h
    subst h
    exact ⟨ne_operationError _ _ _ (by decide), ne_operationError _ _ _ (by decide)⟩
  · by_cases h1 : maxWaitDur < Microsecond
    · simp only [h0, h1, if_false, if_true] at h
      exact waiterError_ne_operationError waiter _ err h cause
    · simp only [h0, h1, if_false] at h
      exact waiterError_ne_operationError waiter _ err h cause

/-- A wait bounded by 600 nanoseconds never succeeds. -/
theorem waiterWait_600 {σ : Type} (waiter : String)
    (poll : DescribeStacksInput → Duration → σ → WaitState × σ) (input : DescribeStacksInput)
    (s : σ) :
    waiterWait waiter poll input 600 s =
      (some ("expected err to be of type smithy.APIError, got " ++
        operationError "DescribeStacks" "context deadline exceeded"), s) := by
  have h0 : ¬ ((600 : Duration) ≤ 0) := by decide
  have h1 : (600 : Duration) < Microsecond := by decide
  simp only [waiterWait, h0, h1, if_false, if_true, waiterError]

theorem createStack_fails {σ : Type} (cfn : Env σ) (stackName template : String) (s : σ) :
    (createStack cfn stackName template s).val.2 ≠ none := by
  rcases createStack_cases cfn stackName template s with
    ⟨err, s1, -, h⟩ | ⟨response, s1, err, s2, -, -, h⟩ | ⟨response, s1, s2, -, hw, h⟩
  · rw [h]; simp
  · rw [h]; simp
  · rw [Env.WaitCreate, waiterWait_600] at hw
    simp at hw

theorem updateStack_fails {σ : Type} (cfn : Env σ) (stackName template : String) (s : σ) :
    (updateStack cfn stackName template s).val.2 ≠ none := by
  rcases updateStack_cases cfn stackName template s with
    ⟨err, s1, -, h⟩ | ⟨response, s1, err, s2, -, -, h⟩ | ⟨response, s1, s2, -, hw, h⟩
  · rw [h]; simp
  · rw [h]; simp
  · rw [Env.WaitUpdate, waiterWait_600] at hw
    simp at hw

theorem dispatch_fails {σ : Type} (cfn : Env σ) (ex : Bool) (stackName template : String)
    (s : σ) : (dispatch cfn ex stackName template s).val ≠ none := by
  cases ex
  · simpa [dispatch] using createStack_fails cfn stackName template s
  · simpa [dispatch] using updateStack_fails cfn stackName template s

/-- An iteration returns only for an entry whose template cannot be read. -/
theorem deployStack_ret_unreadable {σ : Type} (cfn : Env σ) (stack : GoMap) (s : σ)
    (h : (deployStack cfn stack s).val = .ret ()) :
    loads cfn stack = false ∧
    scansOf (deployStack cfn stack s).trace = [] ∧
    requestsOf (deployStack cfn stack s).trace = [] ∧
    successesOf (deployStack cfn stack s).trace = [] := by
  rcases deployStack_shape cfn stack s with
    ⟨err, hr, hD⟩ | ⟨template, code, -, -, hD⟩ | ⟨template, ex, err, -, -, -, hD⟩ |
    ⟨template, ex, hr, hs, hv, hD⟩
  · rw [hD]
    simp [loads, hr, scansOf, requestsOf, successesOf]
  · rw [hD] at h; simp at h
  · rw [hD] at h; simp at h
  · exact absurd hv (dispatch_fails cfn ex _ template s)

/-- An iteration that ends the process is for an entry whose template loads: it
made the scan for its name and at most the one request for it. -/
theorem deployStack_exited_loaded {σ : Type} (cfn : Env σ) (stack : GoMap) (s : σ) (code : Nat)
    (h : (deployStack cfn stack s).val = .exited code) :
    loads cfn stack = true ∧
    scansOf (deployStack cfn stack s).trace = [stack.index "name"] ∧
    ((requestsOf (deployStack cfn stack s).trace).map Request.stackName = [] ∨
      (requestsOf (deployStack cfn stack s).trace).map Request.stackName =
        [some (stack.index "name")]) ∧
    successesOf (deployStack cfn stack s).trace = [] := by
  obtain ⟨-, p2, p3, p4, -, -⟩ := preamble_trace cfn stack
  obtain ⟨-, e2, e3, e4, -, -, -⟩ := stackExists_trace cfn (stack.index "name") s
  rcases deployStack_shape cfn stack s with
    ⟨err, hr, hD⟩ | ⟨template, code1, hr, hs, hD⟩ | ⟨template, ex, err, hr, hs, hv, hD⟩ |
    ⟨template, ex, hr, hs, hv, hD⟩
  · rw [hD] at h; simp at h
  · rw [hD]
    refine ⟨by simp [loads, hr], ?_, Or.inl ?_, ?_⟩
    · simp only [scansOf_append, p2, e2, List.nil_append]
    · simp only [requestsOf_append, p4, e4, List.append_nil, List.map_nil]
    · simp only [successesOf_append, p3, e3, List.append_nil]
  · obtain ⟨r1, r2⟩ := deployStack_requests cfn stack s template ex hr hs
    obtain ⟨-, o2, -⟩ := deployStack_op_failed cfn stack s template ex err hr hs hv
    refine ⟨by simp [loads, hr], r2, Or.inr ?_, o2⟩
    rw [r1]
    simp [expectedRequest_stackName]
  · rw [hD] at h; simp at h

/-- Scans and requests are for the entries whose template loads, in declaration
order, and the templates are read in declaration order. -/
theorem deployLoop_only_loadable {σ : Type} (cfn : Env σ) (entries : List GoMap) (s : σ) :
    List.IsPrefix (loadsOf (deployLoop cfn entries s).trace)
      (entries.map (fun st => st.index "template")) ∧
    List.IsPrefix (scansOf (deployLoop cfn entries s).trace)
      ((entries.filter (loads cfn)).map (fun st => st.index "name")) ∧
    List.IsPrefix ((requestsOf (deployLoop cfn entries s).trace).map Request.stackName)
      ((entries.filter (loads cfn)).map (fun st => some (st.index "name"))) := by
  induction entries generalizing s with
  | nil => simp [deployLoop, loadsOf, scansOf, requestsOf]
  | cons stack rest ih =>
    have f1 := deployStack_loadsOf cfn stack s
    cases hv : (deployStack cfn stack s).val with
    | exited code =>
      obtain ⟨x1, x2, x3, -⟩ := deployStack_exited_loaded cfn stack s code hv
      rw [deployLoop_cons_exited cfn stack rest s code hv, f1, x2]
      simp only [List.filter_cons, x1, if_true, List.map_cons]
      refine ⟨⟨_, rfl⟩, ⟨_, rfl⟩, ?_⟩
      rcases x3 with x3 | x3 <;> rw [x3]
      · exact List.nil_prefix
      · exact ⟨_, rfl⟩
    | ret u =>
      obtain ⟨y1, y2, y3, -⟩ := deployStack_ret_unreadable cfn stack s hv
      obtain ⟨⟨t1, i1⟩, i2, i3⟩ := ih (deployStack cfn stack s).state
      rw [deployLoop_cons_ret cfn stack rest s hv]
      simp only [loadsOf_append, scansOf_append, requestsOf_append, f1, y2, y3, List.nil_append,
        List.filter_cons, y1, List.map_cons, Bool.false_eq_true, if_false]
      exact ⟨⟨t1, by simp [← i1]⟩, i2, i3⟩

/-- Because every wait fails, a run makes at most one scan and one request in
all and logs no stack as deployed. -/
theorem deployLoop_at_most_one {σ : Type} (cfn : Env σ) (entries : List GoMap) (s : σ) :
    (scansOf (deployLoop cfn entries s).trace).length ≤ 1 ∧
    ((requestsOf (deployLoop cfn entries s).trace).map Request.stackName).length ≤ 1 ∧
    successesOf (deployLoop cfn entries s).trace = [] := by
  induction entries generalizing s with
  | nil => simp [deployLoop, scansOf, requestsOf, successesOf]
  | cons stack rest ih =>
    cases hv : (deployStack cfn stack s).val with
    | exited code =>
      obtain ⟨-, x2, x3, x4⟩ := deployStack_exited_loaded cfn stack s code hv
      rw [deployLoop_cons_exited cfn stack rest s code hv, x2, x4]
      refine ⟨by simp, ?_, rfl⟩
      rcases x3 with x3 | x3 <;> rw [x3] <;> simp
    | ret u =>
      obtain ⟨-, y2, y3, y4⟩ := deployStack_ret_unreadable cfn stack s hv
      rw [deployLoop_cons_ret cfn stack rest s hv]
      simp only [scansOf_append, requestsOf_append, successesOf_append, y2, y3, y4,
        List.nil_append]
      exact ih _

/-! ## The failure policy of `deploy` -/

/-- C3: against every service no stack is logged as deployed, because the wait
of `createStack` and `updateStack` is bounded by 600 nanoseconds and fails.
With the list A, B, C, all templates readable, on a service that accepts the
request for A and rejects the one for B, `deploy` ends with exit code 1 on the
wait for A: A is not logged as deployed, and no template load, scan or request
is made for B, whose submission the claim takes as the point of the halt. -/
theorem deploy_halts_on_first_wait {σ : Type} (cfn : Env σ) (deploycfg : DeployConfig) (s : σ) :
    successesOf (deploy cfn deploycfg s).trace = [] ∧
    ((fakeEnv files ["B"]).CreateStack ⟨some "A", some "TA", capabilities⟩ []).1 =
      .ok ⟨some "A"⟩ ∧
    ((fakeEnv files ["B"]).CreateStack ⟨some "B", some "TB", capabilities⟩
      [⟨"A", "CREATE_COMPLETE"⟩]).1 =
      .error (operationError "CreateStack"
        "https response error StatusCode: 400, api error ValidationError") ∧
    (deploy (fakeEnv files ["B"]) cfgABC []).val = .exited 1 ∧
    loadsOf (deploy (fakeEnv files ["B"]) cfgABC []).trace = ["a.yml"] ∧
    scansOf (deploy (fakeEnv files ["B"]) cfgABC []).trace = ["A"] ∧
    requestsOf (deploy (fakeEnv files ["B"]) cfgABC []).trace =
      [.create ⟨some "A", some "TA", capabilities⟩] ∧
    waitsOf (deploy (fakeEnv files ["B"]) cfgABC []).trace = [(⟨none, none⟩, 600 * Nanosecond)] ∧
    successesOf (deploy (fakeEnv files ["B"]) cfgABC []).trace = [] ∧
    (deploy (fakeEnv files ["B"]) cfgABC []).trace.getLast? =
      some (.fatal .red "expected err to be of type smithy.APIError, got operation error CloudFormation: DescribeStacks, context deadline exceeded") := by
  refine ⟨(deployLoop_at_most_one cfn deploycfg.Stacks s).2.2, by decide, by decide, by decide,
    by decide, by decide, by decide, by decide, by decide, by decide⟩

/-- C4, as stated, fails: with the list A, B, C, all templates readable, and an
inventory whose second page fetch fails, no create or update operation fails
(none is submitted), yet the run ends in the scan for A and no request is
issued for any of the three loadable stacks. -/
theorem deploy_scan_failure_counterexample :
    (∀ e ∈ (deploy (listingEnv brokenPages) cfgABC []).trace, opFailed e = false) ∧
    (cfgABC.Stacks.filter (loads (listingEnv brokenPages))).map (fun st => st.index "name") =
      ["A", "B", "C"] ∧
    scansOf (deploy (listingEnv brokenPages) cfgABC []).trace = ["A"] ∧
    requestsOf (deploy (listingEnv brokenPages) cfgABC []).trace = [] ∧
    (deploy (listingEnv brokenPages) cfgABC []).val = .exited 1 := by
  decide

/-- C4, amended: for every ordered stack list, `deploy` issues inventory scans
and create or update requests only for entries whose template loads, in
declaration order, until a failed page fetch or a failed operation halts the
run; an entry whose template cannot be read, once the run reaches it, leaves
only the read and a yellow log line in the trace, without any remote call, and
the run goes on with the entries after it in the same service state. -/
theorem deploy_skips_unreadable {σ : Type} (cfn : Env σ) (deploycfg : DeployConfig) (s : σ) :
    List.IsPrefix (scansOf (deploy cfn deploycfg s).trace)
      ((deploycfg.Stacks.filter (loads cfn)).map (fun st => st.index "name")) ∧
    List.IsPrefix ((requestsOf (deploy cfn deploycfg s).trace).map Request.stackName)
      ((deploycfg.Stacks.filter (loads cfn)).map (fun st => some (st.index "name"))) ∧
    (∀ (pre post : List GoMap) (b : GoMap), deploycfg.Stacks = pre ++ b :: post →
      (deployLoop cfn pre s).val = .ret () →
      loads cfn b = false →
      ∃ err, cfn.ReadFile (b.index "template") = .error err ∧
        (deploy cfn deploycfg s).trace =
          (deployLoop cfn pre s).trace ++
            [.parseTemplate (b.index "template") (.error err), .print .yellow err] ++
            (deployLoop cfn post (deployLoop cfn pre s).state).trace) := by
  obtain ⟨-, g2, g3⟩ := deployLoop_only_loadable cfn deploycfg.Stacks s
  refine ⟨g2, g3, ?_⟩
  intro pre post b hcfg hpre hb
  cases hr : cfn.ReadFile (b.index "template") with
  | ok template => simp [loads, hr] at hb
  | error err =>
    refine ⟨err, rfl, ?_⟩
    have hD := deployStack_unreadable cfn b (deployLoop cfn pre s).state err hr
    have hv : (deployStack cfn b (deployLoop cfn pre s).state).val = .ret () := by rw [hD]
    rw [deploy, hcfg, deployLoop_append_ret cfn pre (b :: post) s hpre,
      deployLoop_cons_ret cfn b post _ hv, hD]
    simp only [List.append_assoc]

/-- With the list B, C where the template path of B is missing, B is skipped
with a warning and C is attempted: its scan and its create request are made. -/
theorem deploy_skips_unreadable_witness :
    (∃ err, (fakeEnv files []).ReadFile "missing.yml" = .error err ∧
      (deploy (fakeEnv files []) cfgMissingC []).trace =
        (deployLoop (fakeEnv files []) [] []).trace ++
          [.parseTemplate "missing.yml" (.error err), .print .yellow err] ++
          (deployLoop (fakeEnv files []) [[("name", "C"), ("template", "c.yml")]]
            (deployLoop (fakeEnv files []) [] []).state).trace) ∧
    loadsOf (deploy (fakeEnv files []) cfgMissingC []).trace = ["missing.yml", "c.yml"] ∧
    scansOf (deploy (fakeEnv files []) cfgMissingC []).trace = ["C"] ∧
    requestsOf (deploy (fakeEnv files []) cfgMissingC []).trace =
      [.create ⟨some "C", some "TC", capabilities⟩] :=
  ⟨(deploy_skips_unreadable (fakeEnv files []) cfgMissingC []).2.2 []
      [[("name", "C"), ("template", "c.yml")]] [("name", "B"), ("template", "missing.yml")]
      rfl (by decide) (by decide),
    by decide, by decide, by decide⟩

/-- C5, as stated, fails: with the list A, B, C where the template of A loads and
the second page fetch of the inventory fails, the scan for A ends the run and
no request at all is submitted for A. -/
theorem deploy_no_request_counterexample :
    [("name", "A"), ("template", "a.yml")] ∈ cfgAmissingC.Stacks ∧
    (listingEnv brokenPages).ReadFile "a.yml" = .ok "TA" ∧
    loadsOf (deploy (listingEnv brokenPages) cfgAmissingC []).trace = ["a.yml"] ∧
    requestsOf (deploy (listingEnv brokenPages) cfgAmissingC []).trace = [] := by
  decide

/-- C5, amended: when the run reaches an entry whose template loads and
`stackExists` answers `ex` for its name, the iteration for that entry, which is
part of the trace of `deploy`, holds exactly one provisioning request: an
update request when `ex` is true and a create request when it is false,
carrying the name of the entry and the loaded template body. -/
theorem deploy_submits_one_request {σ : Type} (cfn : Env σ) (deploycfg : DeployConfig)
    (pre post : List GoMap) (b : GoMap) (s0 : σ) (template : String) (ex : Bool)
    (hcfg : deploycfg.Stacks = pre ++ b :: post)
    (hpre : (deployLoop cfn pre s0).val = .ret ())
    (hload : cfn.ReadFile (b.index "template") = .ok template)
    (hscan : (stackExists cfn (b.index "name") (deployLoop cfn pre s0).state).val = .ret ex) :
    (∃ after, (deploy cfn deploycfg s0).trace =
      (deployLoop cfn pre s0).trace ++
        (deployStack cfn b (deployLoop cfn pre s0).state).trace ++ after) ∧
    requestsOf (deployStack cfn b (deployLoop cfn pre s0).state).trace =
      [if ex = true then Request.update ⟨some (b.index "name"), some template, capabilities⟩
       else Request.create ⟨some (b.index "name"), some template, capabilities⟩] := by
  refine ⟨?_, (deployStack_requests cfn b _ template ex hload hscan).1⟩
  rw [deploy, hcfg, deployLoop_append_ret cfn pre (b :: post) s0 hpre]
  cases hv : (deployStack cfn b (deployLoop cfn pre s0).state).val with
  | exited code =>
    rw [deployLoop_cons_exited cfn b post _ code hv]
    exact ⟨[], by simp⟩
  | ret u =>
    rw [deployLoop_cons_ret cfn b post _ hv]
    exact ⟨(deployLoop cfn post (deployStack cfn b (deployLoop cfn pre s0).state).state).trace,
      (List.append_assoc _ _ _).symm⟩

/-- In the run of B, C where the template of B is missing, the one request for
C is a create request on an empty inventory and an update request on an
inventory that lists C, in both cases with the body of its template. -/
theorem deploy_submits_one_request_witness :
    requestsOf (deployStack (fakeEnv files []) [("name", "C"), ("template", "c.yml")]
      (deployLoop (fakeEnv files []) [[("name", "B"), ("template", "missing.yml")]] []).state).trace
      = [Request.create ⟨some "C", some "TC", capabilities⟩] ∧
    requestsOf (deployStack (fakeEnv files []) [("name", "C"), ("template", "c.yml")]
      (deployLoop (fakeEnv files []) [[("name", "B"), ("template", "missing.yml")]]
        [⟨"C", "CREATE_COMPLETE"⟩]).state).trace
      = [Request.update ⟨some "C", some "TC", capabilities⟩] :=
  ⟨(deploy_submits_one_request (fakeEnv files []) cfgMissingC
      [[("name", "B"), ("template", "missing.yml")]] []
      [("name", "C"), ("template", "c.yml")] [] "TC" false rfl (by decide) (by decide)
      (by decide)).2,
    (deploy_submits_one_request (fakeEnv files []) cfgMissingC
      [[("name", "B"), ("template", "missing.yml")]] []
      [("name", "C"), ("template", "c.yml")] [⟨"C", "CREATE_COMPLETE"⟩] "TC" true rfl
      (by decide) (by decide) (by decide)).2⟩

/-! ## The dispatcher: `createStack` and `updateStack` -/

/-- C6: `createStack` and `updateStack` return a nil error exactly when the
submission succeeds and the wait that follows it succeeds, and then return the
payload of the submission; when the submission succeeds and the wait fails
they return the error of the wait; and an iteration of `deploy` whose operation
returns an error ends the process without logging the stack as deployed. -/
theorem createStack_updateStack_success_iff {σ : Type} (cfn : Env σ)
    (stackName template : String) (s : σ) :
    ((createStack cfn stackName template s).val.2 = none ↔
      ∃ response s1,
        cfn.CreateStack ⟨some stackName, some template, capabilities⟩ s = (.ok response, s1) ∧
        (cfn.WaitCreate ⟨none, none⟩ 600 s1).1 = none ∧
        (createStack cfn stackName template s).val.1 = response) ∧
    (∀ response s1 err,
      cfn.CreateStack ⟨some stackName, some template, capabilities⟩ s = (.ok response, s1) →
      (cfn.WaitCreate ⟨none, none⟩ 600 s1).1 = some err →
      (createStack cfn stackName template s).val.2 = some err) ∧
    ((updateStack cfn stackName template s).val.2 = none ↔
      ∃ response s1,
        cfn.UpdateStack ⟨some stackName, some template, capabilities⟩ s = (.ok response, s1) ∧
        (cfn.WaitUpdate ⟨none, none⟩ 600 s1).1 = none ∧
        (updateStack cfn stackName template s).val.1 = response) ∧
    (∀ response s1 err,
      cfn.UpdateStack ⟨some stackName, some template, capabilities⟩ s = (.ok response, s1) →
      (cfn.WaitUpdate ⟨none, none⟩ 600 s1).1 = some err →
      (updateStack cfn stackName template s).val.2 = some err) ∧
    (∀ (stack : GoMap) (ex : Bool), stack.index "name" = stackName →
      cfn.ReadFile (stack.index "template") = .ok template →
      (stackExists cfn stackName s).val = .ret ex →
      (if ex = true then (updateStack cfn stackName template s).val.2
        else (createStack cfn stackName template s).val.2) ≠ none →
      (deployStack cfn stack s).val = .exited 1 ∧
      successesOf (deployStack cfn stack s).trace = []) := by
  refine ⟨?_, ?_, ?_, ?_, ?_⟩
  · rcases createStack_cases cfn stackName template s with
      ⟨err, s1, hc, h⟩ | ⟨response, s1, err, s2, hc, hw, h⟩ | ⟨response, s1, s2, hc, hw, h⟩
    · rw [h, hc]; simp
    · rw [h, hc]
      simp only [false_iff, not_exists, not_and, reduceCtorEq, Prod.mk.injEq, Outcome.ok.injEq]
      rintro r t ⟨rfl, rfl⟩ hw2
      rw [hw] at hw2
      simp at hw2
    · rw [h, hc]
      simp only [true_iff]
      exact ⟨response, s1, rfl, by rw [hw], rfl⟩
  · intro response s1 err hc hw
    rcases createStack_cases cfn stackName template s with
      ⟨err1, t1, hc1, h⟩ | ⟨r1, t1, err1, t2, hc1, hw1, h⟩ | ⟨r1, t1, t2, hc1, hw1, h⟩
    · rw [hc] at hc1; simp at hc1
    · rw [hc] at hc1
      simp only [Prod.mk.injEq, Outcome.ok.injEq] at hc1
      obtain ⟨rfl, rfl⟩ := hc1
      rw [hw1] at hw
      rw [h]
      exact hw
    · rw [hc] at hc1
      simp only [Prod.mk.injEq, Outcome.ok.injEq] at hc1
      obtain ⟨rfl, rfl⟩ := hc1
      rw [hw1] at hw
      simp at hw
  · rcases updateStack_cases cfn stackName template s with
      ⟨err, s1, hc, h⟩ | ⟨response, s1, err, s2, hc, hw, h⟩ | ⟨response, s1, s2, hc, hw, h⟩
    · rw [h, hc]; simp
    · rw [h, hc]
      simp only [false_iff, not_exists, not_and, reduceCtorEq, Prod.mk.injEq, Outcome.ok.injEq]
      rintro r t ⟨rfl, rfl⟩ hw2
      rw [hw] at hw2
      simp at hw2
    · rw [h, hc]
      simp only [true_iff]
      exact ⟨response, s1, rfl, by rw [hw], rfl⟩
  · intro response s1 err hc hw
    rcases updateStack_cases cfn stackName template s with
      ⟨err1, t1, hc1, h⟩ | ⟨r1, t1, err1, t2, hc1, hw1, h⟩ | ⟨r1, t1, t2, hc1, hw1, h⟩
    · rw [hc] at hc1; simp at hc1
    · rw [hc] at hc1
      simp only [Prod.mk.injEq, Outcome.ok.injEq] at hc1
      obtain ⟨rfl, rfl⟩ := hc1
      rw [hw1] at hw
      rw [h]
      exact hw
    · rw [hc] at hc1
      simp only [Prod.mk.injEq, Outcome.ok.injEq] at hc1
      obtain ⟨rfl, rfl⟩ := hc1
      rw [hw1] at hw
      simp at hw
  · intro stack ex hn hload hscan hfail
    subst hn
    have hd : (dispatch cfn ex (stack.index "name") template s).val ≠ none := by
      cases ex
      · simpa [dispatch] using hfail
      · simpa [dispatch] using hfail
    obtain ⟨err, hv⟩ := Option.ne_none_iff_exists'.mp hd
    obtain ⟨o1, o2, -⟩ := deployStack_op_failed cfn stack s template ex err hload hscan hv
    exact ⟨o1, o2⟩

/-- A create whose submission is accepted and whose wait fails returns the
error of the wait, and `deploy` ends without a success line. -/
theorem createStack_updateStack_success_iff_witness :
    (createStack (fakeEnv files []) "A" "TA" []).val.2 = some "expected err to be of type smithy.APIError, got operation error CloudFormation: DescribeStacks, context deadline exceeded" ∧
    (deployStack (fakeEnv files []) [("name", "A"), ("template", "a.yml")] []).val = .exited 1 ∧
    successesOf (deployStack (fakeEnv files []) [("name", "A"), ("template", "a.yml")]
      []).trace = [] := by
  have h := createStack_updateStack_success_iff (fakeEnv files []) "A" "TA" []
  exact ⟨h.2.1 ⟨some "A"⟩ [⟨"A", "CREATE_COMPLETE"⟩] "expected err to be of type smithy.APIError, got operation error CloudFormation: DescribeStacks, context deadline exceeded" (by decide) (by decide),
    h.2.2.2.2 [("name", "A"), ("template", "a.yml")] false (by decide) (by decide) (by decide)
      (by decide)⟩

theorem waitsOf_createStack {σ : Type} (cfn : Env σ) (stackName template : String) (s : σ) :
    List.Sublist (waitsOf (createStack cfn stackName template s).trace)
      [(⟨none, none⟩, 600)] := by
  rcases createStack_cases cfn stackName template s with
    ⟨err, s1, -, h⟩ | ⟨response, s1, err, s2, -, -, h⟩ | ⟨response, s1, s2, -, -, h⟩ <;>
  rw [h] <;> simp [waitsOf]

theorem waitsOf_updateStack {σ : Type} (cfn : Env σ) (stackName template : String) (s : σ) :
    List.Sublist (waitsOf (updateStack cfn stackName template s).trace)
      [(⟨none, none⟩, 600)] := by
  rcases updateStack_cases cfn stackName template s with
    ⟨err, s1, -, h⟩ | ⟨response, s1, err, s2, -, -, h⟩ | ⟨response, s1, s2, -, -, h⟩ <;>
  rw [h] <;> simp [waitsOf]

/-- C7: the bound `createStack` and `updateStack` hand to the waiter is the
untyped constant 600, which as a `time.Duration` is 600 nanoseconds, not the
600 seconds (ten minutes) of the claim: whatever the service, the name and the
template, no wait is made with another bound, and against a service that
accepts the submission the wait is made with that one. -/
theorem wait_bound_is_600_nanoseconds {σ : Type} (cfn : Env σ) (stackName template : String)
    (s : σ) :
    List.Sublist ((waitsOf (createStack cfn stackName template s).trace).map Prod.snd)
      [600 * Nanosecond] ∧
    List.Sublist ((waitsOf (updateStack cfn stackName template s).trace).map Prod.snd)
      [600 * Nanosecond] ∧
    (waitsOf (createStack (fakeEnv files []) "A" "TA" []).trace).map Prod.snd =
      [600 * Nanosecond] ∧
    (waitsOf (updateStack (fakeEnv files []) "A" "TA" []).trace).map Prod.snd =
      [600 * Nanosecond] ∧
    600 * Nanosecond ≠ 600 * Second ∧
    600 * Second = 10 * Minute := by
  refine ⟨?_, ?_, by decide, by decide, by decide, by decide⟩
  · exact (waitsOf_createStack cfn stackName template s).map Prod.snd
  · exact (waitsOf_updateStack cfn stackName template s).map Prod.snd

/-- C8: the describe request `createStack` and `updateStack` hand to the waiter
is the empty `DescribeStacksInput`: it names no stack, whatever the service,
the name and the template, while the request just submitted names the stack. -/
theorem wait_names_no_stack {σ : Type} (cfn : Env σ) (stackName template : String) (s : σ) :
    (requestsOf (createStack cfn stackName template s).trace).map Request.stackName =
      [some stackName] ∧
    List.Sublist
      ((waitsOf (createStack cfn stackName template s).trace).map (fun w => w.1.StackName))
      [none] ∧
    (requestsOf (updateStack cfn stackName template s).trace).map Request.stackName =
      [some stackName] ∧
    List.Sublist
      ((waitsOf (updateStack cfn stackName template s).trace).map (fun w => w.1.StackName))
      [none] ∧
    (requestsOf (createStack (fakeEnv files []) "A" "TA" []).trace).map Request.stackName =
      [some "A"] ∧
    (waitsOf (createStack (fakeEnv files []) "A" "TA" []).trace).map
      (fun w => w.1.StackName) = [none] ∧
    (requestsOf (updateStack (fakeEnv files []) "A" "TA" []).trace).map Request.stackName =
      [some "A"] ∧
    (waitsOf (updateStack (fakeEnv files []) "A" "TA" []).trace).map
      (fun w => w.1.StackName) = [none] := by
  have hc := (dispatch_trace cfn false stackName template s).2.2.2.1
  have hu := (dispatch_trace cfn true stackName template s).2.2.2.1
  simp only [dispatch, Bool.false_eq_true, if_false, if_true, expectedRequest] at hc hu
  refine ⟨?_, ?_, ?_, ?_, by decide, by decide, by decide, by decide⟩
  · rw [hc]; rfl
  · exact (waitsOf_createStack cfn stackName template s).map (fun w => w.1.StackName)
  · rw [hu]; rfl
  · exact (waitsOf_updateStack cfn stackName template s).map (fun w => w.1.StackName)

/-- C9: one run of `deploy` makes at most one inventory scan and submits at most
one create or update request for any stack name: the wait that follows a
request fails, so the run ends with the first entry whose template loads and
there is at most one scan and one request in the whole run. -/
theorem deploy_one_decision_per_name {σ : Type} (cfn : Env σ) (deploycfg : DeployConfig)
    (s : σ) (stackName : String) :
    (scansOf (deploy cfn deploycfg s).trace).count stackName ≤ 1 ∧
    ((requestsOf (deploy cfn deploycfg s).trace).map Request.stackName).count
      (some stackName) ≤ 1 := by
  obtain ⟨h1, h2, -⟩ := deployLoop_at_most_one cfn deploycfg.Stacks s
  exact ⟨le_trans (List.count_le_length _ _) h1, le_trans (List.count_le_length _ _) h2⟩

/-- C10: the failure returned by `createStack` and `updateStack` tells the phase:
when the submission fails with a cause the result carries the operation error
of the request with that cause, when the submission succeeds and the wait fails
the result carries the error of the waiter, and the two results differ,
whatever the causes. -/
theorem failure_identifies_phase {σ τ : Type} (cfn1 : Env σ) (cfn2 : Env τ)
    (stackName template : String) (s : σ) (t : τ) :
    (∀ cause s1,
      cfn1.SubmitCreate ⟨some stackName, some template, capabilities⟩ s = (.error cause, s1) →
      (createStack cfn1 stackName template s).val =
        (⟨none⟩, some (operationError "CreateStack" cause)) ∧
      ∀ response t1 err,
        cfn2.CreateStack ⟨some stackName, some template, capabilities⟩ t = (.ok response, t1) →
        (cfn2.WaitCreate ⟨none, none⟩ 600 t1).1 = some err →
        (createStack cfn2 stackName template t).val = (⟨none⟩, some err) ∧
        (createStack cfn1 stackName template s).val ≠
          (createStack cfn2 stackName template t).val) ∧
    (∀ cause s1,
      cfn1.SubmitUpdate ⟨some stackName, some template, capabilities⟩ s = (.error cause, s1) →
      (updateStack cfn1 stackName template s).val =
        (⟨none⟩, some (operationError "UpdateStack" cause)) ∧
      ∀ response t1 err,
        cfn2.UpdateStack ⟨some stackName, some template, capabilities⟩ t = (.ok response, t1) →
        (cfn2.WaitUpdate ⟨none, none⟩ 600 t1).1 = some err →
        (updateStack cfn2 stackName template t).val = (⟨none⟩, some err) ∧
        (updateStack cfn1 stackName template s).val ≠
          (updateStack cfn2 stackName template t).val) := by
  constructor
  · intro cause s1 hsub
    have hc : cfn1.CreateStack ⟨some stackName, some template, capabilities⟩ s =
        (.error (operationError "CreateStack" cause), s1) := by
      simp only [Env.CreateStack, hsub, Outcome.wrap]
    have h1 : (createStack cfn1 stackName template s).val =
        (⟨none⟩, some (operationError "CreateStack" cause)) := by
      simp only [createStack, hc]
    refine ⟨h1, ?_⟩
    intro response t1 err hc2 hw
    have hne := (waiterWait_ne_operationError _ _ _ _ _ err hw cause).1
    rcases hw2 : cfn2.WaitCreate ⟨none, none⟩ 600 t1 with ⟨w, t2⟩
    rw [hw2] at hw
    simp only at hw
    subst hw
    have h2 : (createStack cfn2 stackName template t).val = (⟨none⟩, some err) := by
      simp only [createStack, hc2, hw2]
    refine ⟨h2, ?_⟩
    rw [h1, h2]
    intro heq
    simp only [Prod.mk.injEq, Option.some.injEq, true_and] at heq
    exact hne heq.symm
  · intro cause s1 hsub
    have hc : cfn1.UpdateStack ⟨some stackName, some template, capabilities⟩ s =
        (.error (operationError "UpdateStack" cause), s1) := by
      simp only [Env.UpdateStack, hsub, Outcome.wrap]
    have h1 : (updateStack cfn1 stackName template s).val =
        (⟨none⟩, some (operationError "UpdateStack" cause)) := by
      simp only [updateStack, hc]
    refine ⟨h1, ?_⟩
    intro response t1 err hc2 hw
    have hne := (waiterWait_ne_operationError _ _ _ _ _ err hw cause).2
    rcases hw2 : cfn2.WaitUpdate ⟨none, none⟩ 600 t1 with ⟨w, t2⟩
    rw [hw2] at hw
    simp only at hw
    subst hw
    have h2 : (updateStack cfn2 stackName template t).val = (⟨none⟩, some err) := by
      simp only [updateStack, hc2, hw2]
    refine ⟨h2, ?_⟩
    rw [h1, h2]
    intro heq
    simp only [Prod.mk.injEq, Option.some.injEq, true_and] at heq
    exact hne heq.symm

/-- A rejected create returns the operation error of `CreateStack`, an accepted
one whose wait fails returns the error of the waiter, and the results differ. -/
theorem failure_identifies_phase_witness :
    (createStack (fakeEnv files ["A"]) "A" "TA" []).val =
      (⟨none⟩, some ("operation error CloudFormation: CreateStack, " ++
        "https response error StatusCode: 400, api error ValidationError")) ∧
    (createStack (fakeEnv files []) "A" "TA" []).val = (⟨none⟩, some "expected err to be of type smithy.APIError, got operation error CloudFormation: DescribeStacks, context deadline exceeded") ∧
    (createStack (fakeEnv files ["A"]) "A" "TA" []).val ≠
      (createStack (fakeEnv files []) "A" "TA" []).val := by
  have h := (failure_identifies_phase (fakeEnv files ["A"]) (fakeEnv files []) "A" "TA" []
    []).1 "https response error StatusCode: 400, api error ValidationError" [] (by decide)
  have h2 := h.2 ⟨some "A"⟩ [⟨"A", "CREATE_COMPLETE"⟩] "expected err to be of type smithy.APIError, got operation error CloudFormation: DescribeStacks, context deadline exceeded" (by decide) (by decide)
  exact ⟨h.1, h2.1, h2.2⟩

end CfnDeployer
